import Mathlib

/-!
Verification of the stream-aggregation glue layer of
`app/vminsert/common/streamaggr.go`: the rule-set lifecycle manager
(`InitStreamAggr`, `reloadStreamAggrConfig`, `MustStopStreamAggr`), the
transformation context (`streamAggrCtx.push`) and the feedback writer
(`pushAggregateSeries`), shallowly embedded as pure Lean functions.

Modelling conventions:
- `float64` sample values are never inspected or computed on by this layer,
  only copied; they are modelled by an opaque integer payload (`Value`).
- The binary metric-name codec (`lib/storage`) is out of scope; a
  `MetricRow` carries its already-decoded identity, and `UnmarshalRaw`
  on bytes produced by the trusted pipeline always succeeds, so the
  `logger.Panicf` branch of `push` is unreachable in the model.
- Side effects that the claims talk about (atomic pointer swaps, instance
  stops) are recorded as explicit event traces returned next to the new
  state, in the order the source performs them.
-/

namespace StreamAggr

/-- Opaque carrier for Go `float64` sample values: this layer only copies
them, never computes on them. -/
abbrev Value := Int

/-- `prompbmarshal.Label`: a (name, value) pair. In the Go code both are
zero-copy views into the context arena; value-wise they are strings. -/
structure Label where
  name : String
  value : String
deriving DecidableEq, Repr

/-- `prompbmarshal.Sample`: timestamp in milliseconds and a value. -/
structure Sample where
  timestamp : Int
  value : Value
deriving DecidableEq, Repr

/-- `prompbmarshal.TimeSeries`: ordered labels plus ordered samples. -/
structure TimeSeries where
  labels : List Label
  samples : List Sample
deriving DecidableEq, Repr

/-- Decoded `storage.MetricName`: metric group plus ordered tag pairs. -/
structure MetricName where
  metricGroup : String
  tags : List (String × String)
deriving DecidableEq, Repr

/-- `storage.MetricRow`: in the source the identity travels as raw bytes
(`MetricNameRaw`); the codec is out of scope, so the model carries the
decoded identity directly. -/
structure MetricRow where
  metricNameRaw : MetricName
  timestamp : Int
  value : Value
deriving DecidableEq, Repr

/-- A rule-set instance (`streamaggr.Aggregators`). `id` models pointer
identity of the Go instance, `config` the parsed configuration it wraps,
and `matchesRule` which series are claimed by one of its rules (the
engine internals are out of scope). -/
structure Aggregators where
  id : Nat
  config : String
  matchesRule : TimeSeries → Bool

/-- Modelled from the spec: `(*Aggregators).Equal` of `lib/streamaggr`
(not under src/) compares a candidate with the active instance for
structural equality — same rules, same options — and an actual instance
is never equal to an empty (nil) one. -/
def Aggregators.equalOpt (a : Aggregators) : Option Aggregators → Bool
  | none => false
  | some b => a.config == b.config

/-- Value-level model of `bytesutil.ResizeNoCopyMayOverallocate` followed
by the explicit zeroing loop in `push`: the resized buffer has length `n`
and unspecified contents, which the loop then sets to `0`. -/
def resizeAndZero (_matchIdxs : List Nat) (n : Nat) : List Nat :=
  List.replicate n 0

/-- The per-row body of the loop in `streamAggrCtx.push`: a label named
`__name__` holding the metric group, then one label per decoded tag in
order, and exactly one sample with the row's timestamp and value. -/
def rowToTimeSeries (mr : MetricRow) : TimeSeries :=
  { labels := { name := "__name__", value := mr.metricNameRaw.metricGroup } ::
      mr.metricNameRaw.tags.map (fun t => { name := t.1, value := t.2 }),
    samples := [{ timestamp := mr.timestamp, value := mr.value }] }

/-- The whole conversion loop of `streamAggrCtx.push`: the batch slice
`tss[tssLen:]` handed to the rule set, in input order. -/
def buildTimeSeries (mrs : List MetricRow) : List TimeSeries :=
  mrs.map rowToTimeSeries

/-- Modelled from the spec: the rule set's push entry point
(`(*Aggregators).Push` of `lib/streamaggr`, not under src/) populates the
zeroed bitmap, flagging exactly the series claimed by a rule, and returns
it with unchanged length. -/
def Aggregators.enginePush (sas : Aggregators) (tss : List TimeSeries) : List Nat :=
  tss.map (fun ts => if sas.matchesRule ts then 1 else 0)

/-- Side effects of the lifecycle manager, recorded in program order: an
atomic swap of the active-pointer cell (`sasGlobal.Swap`, by instance id)
and a blocking `MustStop` of an instance. A `MustStop` on a nil pointer
(handled inside `lib/streamaggr`) stops nothing and records no event. -/
inductive LifeEvent where
  | swapPtr (oldId newId : Option Nat)
  | stopInstance (id : Nat)
deriving DecidableEq, Repr

/-- True exactly on the swap events of a trace. -/
def LifeEvent.isSwap : LifeEvent → Bool
  | .swapPtr _ _ => true
  | _ => false

/-- The process-wide lifecycle singleton: the active pointer `sasGlobal`,
the four observability metrics, whether `saCfgReloaderStopCh` has been
created, and whether the background reload-listener goroutine runs. -/
structure LifecycleState where
  sasGlobal : Option Aggregators
  saCfgReloads : Nat
  saCfgReloadErr : Nat
  saCfgSuccess : Nat
  saCfgTimestamp : Nat
  stopChCreated : Bool
  reloaderStarted : Bool

/-- The state at process start: no active instance, zeroed metrics, no
stop channel, no listener. -/
def initialState : LifecycleState :=
  { sasGlobal := none, saCfgReloads := 0, saCfgReloadErr := 0,
    saCfgSuccess := 0, saCfgTimestamp := 0,
    stopChCreated := false, reloaderStarted := false }

/-- Outcome of `InitStreamAggr`: a new state, or process abort via
`logger.Fatalf` when the configured file fails to parse. -/
inductive InitOutcome where
  | ok (st : LifecycleState)
  | fatal

/-- Extract the state of an `ok` outcome, with a default for `fatal`. -/
def InitOutcome.stateOr (d : LifecycleState) : InitOutcome → LifecycleState
  | .ok st => st
  | .fatal => d

/-- `InitStreamAggr`: create the stop channel; if `-streamAggr.config` is
empty return at once; otherwise load the config (`logger.Fatalf` on
error), store the instance, set the success gauge and timestamp, and
start the reload-listener goroutine. `load` models
`streamaggr.LoadFromFile` on the file behind the flag. -/
def InitStreamAggr (load : String → Except String Aggregators)
    (streamAggrConfig : String) (now : Nat) (st : LifecycleState) : InitOutcome :=
  let st1 := { st with stopChCreated := true }
  if streamAggrConfig = "" then
    .ok st1
  else
    match load streamAggrConfig with
    | .error _ => .fatal
    | .ok sas =>
        .ok { st1 with sasGlobal := some sas, saCfgSuccess := 1,
                       saCfgTimestamp := now, reloaderStarted := true }

/-- `reloadStreamAggrConfig`: count the attempt; re-parse the config; on
parse error set the success gauge to 0, count the error and return
(the source path only logs — the function is total, it never aborts the
process); on success compare the candidate with the active instance:
if different, atomically swap the pointer to the candidate and then stop
the old instance; if equal, stop the candidate; either way refresh the
success gauge and timestamp. -/
def reloadStreamAggrConfig (load : String → Except String Aggregators)
    (streamAggrConfig : String) (now : Nat) (st : LifecycleState) :
    LifecycleState × List LifeEvent :=
  let st1 := { st with saCfgReloads := st.saCfgReloads + 1 }
  match load streamAggrConfig with
  | .error _ =>
      ({ st1 with saCfgSuccess := 0, saCfgReloadErr := st1.saCfgReloadErr + 1 }, [])
  | .ok sasNew =>
      if !sasNew.equalOpt st1.sasGlobal then
        ({ st1 with sasGlobal := some sasNew, saCfgSuccess := 1,
                    saCfgTimestamp := now },
         LifeEvent.swapPtr (st1.sasGlobal.map Aggregators.id) (some sasNew.id) ::
           (match st1.sasGlobal with
            | some old => [LifeEvent.stopInstance old.id]
            | none => []))
      else
        ({ st1 with saCfgSuccess := 1, saCfgTimestamp := now },
         [LifeEvent.stopInstance sasNew.id])

/-- Outcome of `MustStopStreamAggr`: a state and trace, or a runtime
panic — `close` of a nil channel — when `InitStreamAggr` never ran. -/
inductive StopOutcome where
  | ok (st : LifecycleState) (events : List LifeEvent)
  | panicked

/-- `MustStopStreamAggr`: close the stop channel, wait for the listener
goroutine to exit (immediate when it was never started, since the wait
group is empty), then swap the active pointer to nil and stop the taken
instance (a nil instance stops nothing). -/
def MustStopStreamAggr (st : LifecycleState) : StopOutcome :=
  if st.stopChCreated then
    .ok { st with sasGlobal := none, reloaderStarted := false }
      (LifeEvent.swapPtr (st.sasGlobal.map Aggregators.id) none ::
        (match st.sasGlobal with
         | some s => [LifeEvent.stopInstance s.id]
         | none => []))
  else
    .panicked

/-- The value of the active-pointer cell (by instance id) after an event. -/
def applySwap (p : Option Nat) : LifeEvent → Option Nat
  | .swapPtr _ newId => newId
  | _ => p

/-- Every value of the active-pointer cell readable around a trace: the
value before the first event and after each event. Each event is a single
atomic step, as `sasGlobal` is an `atomic.Pointer`. -/
def pointerHistory (p : Option Nat) : List LifeEvent → List (Option Nat)
  | [] => [p]
  | e :: rest => p :: pointerHistory (applySwap p e) rest

/-- A row built by `InsertCtx.WriteDataPoint` for the storage write API:
its label set (with the `__name__` label already renamed to the empty
metric-group key), its timestamp and its value. -/
structure BuiltRow where
  labels : List Label
  timestamp : Int
  value : Value
deriving DecidableEq, Repr

/-- The label loop of `pushAggregateSeries`: each label is re-added via
`ctx.AddLabel`, with `__name__` renamed to the empty name, which the
insert context treats as the metric-group field; all other labels become
tags. -/
def mapAggregateLabels (labels : List Label) : List Label :=
  labels.map (fun l => if l.name = "__name__" then { l with name := "" } else l)

/-- Modelled from the spec: `ctx.WriteDataPoint` of `InsertCtx` (this
repository's insert context, not under src/) builds one row from the
label set, the timestamp and the value, appending it to the context
batch, or fails; `failOn` abstracts the environment-dependent failure
condition on the row being built. -/
def writeDataPoint (failOn : List Label → Bool) (labels : List Label)
    (timestamp : Int) (v : Value) : Except String BuiltRow :=
  if failOn labels then Except.error "cannot build row"
  else Except.ok { labels := labels, timestamp := timestamp, value := v }

/-- Observable outcome of one `pushAggregateSeries` call: `panicked`
models the out-of-range access `ts.Samples[0]` on a series with no
samples; `buildFailed` carries the rows already built when a
`WriteDataPoint` call failed (the call returns early, nothing reaches
storage); `flushed` means every row was built and the batch was handed
to `vmstorage.AddRows`, which itself may fail. -/
inductive FeedbackOutcome where
  | panicked
  | buildFailed (rowsAccumulated : List BuiltRow)
  | flushed (rows : List BuiltRow) (addRowsFailed : Bool)
deriving DecidableEq, Repr

/-- Errors logged by one feedback call: one for a build failure, one for
a failed storage write, none otherwise. -/
def FeedbackOutcome.errorsLogged : FeedbackOutcome → Nat
  | .panicked => 0
  | .buildFailed _ => 1
  | .flushed _ f => if f then 1 else 0

/-- The batches handed to `vmstorage.AddRows` by one feedback call. -/
def FeedbackOutcome.storageBatches : FeedbackOutcome → List (List BuiltRow)
  | .flushed rows _ => [rows]
  | _ => []

/-- All rows the call built into `ctx.mrs`, forwarded or not. -/
def FeedbackOutcome.rowsBuilt : FeedbackOutcome → List BuiltRow
  | .panicked => []
  | .buildFailed acc => acc
  | .flushed rows _ => rows

/-- The per-series loop of `pushAggregateSeries`, carrying the rows
accumulated so far in `ctx.mrs`: map the labels, read the first sample
(`ts.Samples[0]`, out of range on an empty sample list), build the row,
and on a build error return at once without attempting the rest; when
the whole batch is built, hand it to `vmstorage.AddRows`. -/
def pushAggregateLoop (failOn : List Label → Bool) (addRowsFails : Bool)
    (currentTimestamp : Int) :
    List TimeSeries → List BuiltRow → FeedbackOutcome
  | [], acc => .flushed acc addRowsFails
  | ts :: rest, acc =>
      match ts.samples with
      | [] => .panicked
      | s :: _ =>
          match writeDataPoint failOn (mapAggregateLabels ts.labels)
              currentTimestamp s.value with
          | .error _ => .buildFailed acc
          | .ok row =>
              pushAggregateLoop failOn addRowsFails currentTimestamp rest
                (acc ++ [row])

/-- The insert context of one feedback call: the
skip-stream-aggregation flag set on it and the call's outcome. -/
structure FeedbackCall where
  skipStreamAggr : Bool
  outcome : FeedbackOutcome

/-- `pushAggregateSeries`: take the wall clock truncated to whole
seconds times 1000 as the one timestamp of the call, reset a fresh
insert context with `skipStreamAggr` set, build one row per series from
its first sample, and only when every row built hand the batch to
`vmstorage.AddRows`. -/
def pushAggregateSeries (failOn : List Label → Bool) (addRowsFails : Bool)
    (nowSeconds : Nat) (tss : List TimeSeries) : FeedbackCall :=
  let currentTimestamp : Int := (nowSeconds : Int) * 1000
  { skipStreamAggr := true,
    outcome := pushAggregateLoop failOn addRowsFails currentTimestamp tss [] }

/-- The row `pushAggregateSeries` builds for one series: mapped labels,
the call's wall-clock timestamp and the series' first sample value. -/
def builtRowOf (currentTimestamp : Int) (ts : TimeSeries) : BuiltRow :=
  { labels := mapAggregateLabels ts.labels,
    timestamp := currentTimestamp,
    value := match ts.samples with
             | [] => 0
             | s :: _ => s.value }

/-- Result of one `streamAggrCtx.push` call: the returned bitmap plus the
trace of rule-set invocations (instance id and the batch handed to it). -/
structure PushResult where
  matchIdxs : List Nat
  engineCalls : List (Nat × List TimeSeries)

/-- `streamAggrCtx.push`: convert the batch, resize and zero the bitmap,
load the active instance (`sasGlobal.Load()`, modelled as the `sas`
argument) and dispatch. When no instance is active the nil receiver of
`Push` (modelled from the spec) returns the zeroed bitmap and no rule-set
invocation happens. -/
def streamAggrCtxPush (sas : Option Aggregators) (mrs : List MetricRow)
    (matchIdxs : List Nat) : PushResult :=
  let tss := buildTimeSeries mrs
  let zeroed := resizeAndZero matchIdxs tss.length
  match sas with
  | none => { matchIdxs := zeroed, engineCalls := [] }
  | some s => { matchIdxs := s.enginePush tss, engineCalls := [(s.id, tss)] }

/-- Modelled from the spec: the insert context's flush path consults the
skip flag and bypasses the Transformation Context's aggregation path
when it is set, so such rows cause no rule-set invocation. -/
def insertCtxAggrCalls (skip : Bool) (sas : Option Aggregators)
    (mrs : List MetricRow) : List (Nat × List TimeSeries) :=
  if skip then [] else (streamAggrCtxPush sas mrs []).engineCalls

end StreamAggr

namespace StreamAggr

/-- C1: pushing a batch of N rows while no rule-set instance is active
returns a bitmap of length N with every entry zero and performs no
rule-set invocation. -/
theorem push_disabled_zero_bitmap_no_engine_call
    (mrs : List MetricRow) (matchIdxs : List Nat) :
    (streamAggrCtxPush none mrs matchIdxs).matchIdxs =
      List.replicate mrs.length 0 ∧
    (streamAggrCtxPush none mrs matchIdxs).engineCalls = [] := by
  constructor
  · simp [streamAggrCtxPush, resizeAndZero, buildTimeSeries]
  · rfl

/-- C6: pushing a batch of N rows with aggregation enabled hands exactly
one batch of N series to the active rule set, in input order, where the
series for row i carries first the label `__name__` holding the row's
metric group, then one label per decoded tag pair in order, and exactly
one sample with the row's timestamp and value; both the bitmap handed to
the engine and the bitmap returned have length N. -/
theorem push_enabled_series_shape
    (sas : Aggregators) (mrs : List MetricRow) (matchIdxs : List Nat) :
    (streamAggrCtxPush (some sas) mrs matchIdxs).engineCalls =
      [(sas.id, buildTimeSeries mrs)] ∧
    (buildTimeSeries mrs).length = mrs.length ∧
    (∀ i, ∀ mr : MetricRow, mrs.get? i = some mr →
      (buildTimeSeries mrs).get? i =
        some { labels := { name := "__name__",
                           value := mr.metricNameRaw.metricGroup } ::
                 mr.metricNameRaw.tags.map
                   (fun t => { name := t.1, value := t.2 }),
               samples := [{ timestamp := mr.timestamp,
                             value := mr.value }] }) ∧
    (streamAggrCtxPush (some sas) mrs matchIdxs).matchIdxs.length = mrs.length := by
  refine ⟨rfl, by simp [buildTimeSeries], ?_, ?_⟩
  · intro i mr hmr
    simp only [List.get?_eq_getElem?] at hmr
    simp [buildTimeSeries, List.getElem?_map, hmr, rowToTimeSeries]
  · simp [streamAggrCtxPush, Aggregators.enginePush, buildTimeSeries]

/-- The two-row example batch of the spec: cpu with host=a value 1 at
t=1000, cpu with host=b value 2 at t=2000. -/
def exampleBatch : List MetricRow :=
  [ { metricNameRaw := { metricGroup := "cpu", tags := [("host", "a")] },
      timestamp := 1000, value := 1 },
    { metricNameRaw := { metricGroup := "cpu", tags := [("host", "b")] },
      timestamp := 2000, value := 2 } ]

/-- An example rule-set instance whose rules match every series. -/
def aggMatchAll : Aggregators :=
  { id := 7, config := "cfg-m", matchesRule := fun _ => true }

/-- Witness for C6: the spec's two-row batch pushed with `aggMatchAll`
active is handed over as one batch of two series, and the first handed
series has the spelled-out shape. -/
theorem push_enabled_series_shape_witness :
    (streamAggrCtxPush (some aggMatchAll) exampleBatch []).engineCalls =
      [(aggMatchAll.id, buildTimeSeries exampleBatch)] ∧
    (buildTimeSeries exampleBatch).get? 0 =
      some { labels := [ { name := "__name__", value := "cpu" },
                         { name := "host", value := "a" } ],
             samples := [{ timestamp := 1000, value := 1 }] } := by
  refine ⟨(push_enabled_series_shape aggMatchAll exampleBatch []).1, ?_⟩
  have h := (push_enabled_series_shape aggMatchAll exampleBatch []).2.2.1 0
    { metricNameRaw := { metricGroup := "cpu", tags := [("host", "a")] },
      timestamp := 1000, value := 1 } rfl
  simpa using h

/-- C2 counterexample: initializing with an empty `-streamAggr.config`
returns before the reload-listener goroutine is started, refuting the
claim that the listener is still started when no config source is
given. -/
theorem init_no_config_counterexample :
    ((InitStreamAggr (fun _ => Except.error "unused") "" 7
        initialState).stateOr initialState).reloaderStarted = false := by
  rfl

/-- C2 amended: initializing with no config source leaves the active
pointer empty and does not start the reload-listener task, but it does
create the stop channel first, so a later shutdown remains safe and
symmetric: it returns without panicking, swaps the (empty) active
pointer to empty, and stops no instance. -/
theorem init_no_config_amended
    (load : String → Except String Aggregators) (now : Nat) :
    InitStreamAggr load "" now initialState =
      InitOutcome.ok { initialState with stopChCreated := true } ∧
    (initialState : LifecycleState).sasGlobal = none ∧
    ({ initialState with stopChCreated := true } :
        LifecycleState).reloaderStarted = false ∧
    MustStopStreamAggr { initialState with stopChCreated := true } =
      StopOutcome.ok
        { initialState with
            stopChCreated := true
            sasGlobal := none
            reloaderStarted := false }
        [LifeEvent.swapPtr none none] := by
  exact ⟨rfl, rfl, rfl, rfl⟩

/-- C3: a reload whose parsed candidate is structurally equal to the
active instance leaves the active pointer unchanged by identity (no swap
event occurs, so it is still the very same instance), stops the
candidate, increments the reload-attempt counter and refreshes the
success gauge and timestamp. -/
theorem reload_equal_config
    (load : String → Except String Aggregators) (cfg : String) (now : Nat)
    (st : LifecycleState) (sasNew : Aggregators)
    (hload : load cfg = Except.ok sasNew)
    (heq : sasNew.equalOpt st.sasGlobal = true) :
    (reloadStreamAggrConfig load cfg now st).1.sasGlobal = st.sasGlobal ∧
    (reloadStreamAggrConfig load cfg now st).2 =
      [LifeEvent.stopInstance sasNew.id] ∧
    (reloadStreamAggrConfig load cfg now st).1.saCfgReloads =
      st.saCfgReloads + 1 ∧
    (reloadStreamAggrConfig load cfg now st).1.saCfgSuccess = 1 ∧
    (reloadStreamAggrConfig load cfg now st).1.saCfgTimestamp = now := by
  simp [reloadStreamAggrConfig, hload, heq]

/-- C4: a reload whose parse fails leaves the active pointer (and hence
the active instance's state) untouched, performs no swap and no stop,
increments the error counter, sets the success gauge to 0, does not
touch the timestamp, and returns normally. -/
theorem reload_parse_failure
    (load : String → Except String Aggregators) (cfg : String) (now : Nat)
    (st : LifecycleState) (e : String)
    (hload : load cfg = Except.error e) :
    (reloadStreamAggrConfig load cfg now st).1.sasGlobal = st.sasGlobal ∧
    (reloadStreamAggrConfig load cfg now st).2 = [] ∧
    (reloadStreamAggrConfig load cfg now st).1.saCfgReloadErr =
      st.saCfgReloadErr + 1 ∧
    (reloadStreamAggrConfig load cfg now st).1.saCfgSuccess = 0 ∧
    (reloadStreamAggrConfig load cfg now st).1.saCfgTimestamp =
      st.saCfgTimestamp ∧
    (reloadStreamAggrConfig load cfg now st).1.saCfgReloads =
      st.saCfgReloads + 1 := by
  simp [reloadStreamAggrConfig, hload]

/-- C5: a reload whose candidate differs from the active instance swaps
the active pointer to the candidate as a single atomic event before the
old instance is stopped; the trace holds exactly one swap, and every
readable value of the pointer around the reload is either the old or the
new instance — never a torn value. -/
theorem reload_different_config
    (load : String → Except String Aggregators) (cfg : String) (now : Nat)
    (st : LifecycleState) (sasNew : Aggregators)
    (hload : load cfg = Except.ok sasNew)
    (hneq : sasNew.equalOpt st.sasGlobal = false) :
    (reloadStreamAggrConfig load cfg now st).1.sasGlobal = some sasNew ∧
    (reloadStreamAggrConfig load cfg now st).2 =
      LifeEvent.swapPtr (st.sasGlobal.map Aggregators.id) (some sasNew.id) ::
        (match st.sasGlobal with
         | some old => [LifeEvent.stopInstance old.id]
         | none => []) ∧
    ((reloadStreamAggrConfig load cfg now st).2.filter
        LifeEvent.isSwap).length = 1 ∧
    (∀ p ∈ pointerHistory (st.sasGlobal.map Aggregators.id)
        (reloadStreamAggrConfig load cfg now st).2,
      p = st.sasGlobal.map Aggregators.id ∨ p = some sasNew.id) := by
  cases hsg : st.sasGlobal with
  | none =>
      rw [hsg] at hneq
      refine ⟨?_, ?_, ?_, ?_⟩ <;>
        simp [reloadStreamAggrConfig, hload, hneq, hsg, pointerHistory,
          applySwap, LifeEvent.isSwap]
  | some old =>
      rw [hsg] at hneq
      refine ⟨?_, ?_, ?_, ?_⟩ <;>
        simp [reloadStreamAggrConfig, hload, hneq, hsg, pointerHistory,
          applySwap, LifeEvent.isSwap]

/-- An example active instance. -/
def aggA : Aggregators :=
  { id := 1, config := "cfg-a", matchesRule := fun _ => false }

/-- A freshly parsed candidate with the same config as `aggA` but a
distinct identity. -/
def aggA2 : Aggregators :=
  { id := 2, config := "cfg-a", matchesRule := fun _ => false }

/-- A candidate parsed from a structurally different config. -/
def aggB : Aggregators :=
  { id := 3, config := "cfg-b", matchesRule := fun _ => true }

/-- An example lifecycle state with `aggA` active. -/
def stActive : LifecycleState :=
  { sasGlobal := some aggA, saCfgReloads := 4, saCfgReloadErr := 1,
    saCfgSuccess := 1, saCfgTimestamp := 100,
    stopChCreated := true, reloaderStarted := true }

/-- Witness for C3: reloading `stActive` with a candidate equal in
config leaves the very same pointer and stops the candidate. -/
theorem reload_equal_config_witness :
    (reloadStreamAggrConfig (fun _ => Except.ok aggA2) "f" 200
        stActive).1.sasGlobal = stActive.sasGlobal ∧
    (reloadStreamAggrConfig (fun _ => Except.ok aggA2) "f" 200
        stActive).2 = [LifeEvent.stopInstance 2] :=
  ⟨(reload_equal_config (fun _ => Except.ok aggA2) "f" 200 stActive aggA2
      rfl rfl).1,
   (reload_equal_config (fun _ => Except.ok aggA2) "f" 200 stActive aggA2
      rfl rfl).2.1⟩

/-- Witness for C4: a failing parse leaves the pointer of `stActive`
untouched and flips the success gauge to 0. -/
theorem reload_parse_failure_witness :
    (reloadStreamAggrConfig (fun _ => Except.error "bad config") "f" 200
        stActive).1.sasGlobal = stActive.sasGlobal ∧
    (reloadStreamAggrConfig (fun _ => Except.error "bad config") "f" 200
        stActive).1.saCfgSuccess = 0 :=
  ⟨(reload_parse_failure (fun _ => Except.error "bad config") "f" 200
      stActive "bad config" rfl).1,
   (reload_parse_failure (fun _ => Except.error "bad config") "f" 200
      stActive "bad config" rfl).2.2.2.1⟩

/-- Witness for C5: reloading `stActive` with the different candidate
`aggB` swaps first and stops the old instance after. -/
theorem reload_different_config_witness :
    (reloadStreamAggrConfig (fun _ => Except.ok aggB) "f" 300
        stActive).1.sasGlobal = some aggB ∧
    (reloadStreamAggrConfig (fun _ => Except.ok aggB) "f" 300
        stActive).2 =
      [LifeEvent.swapPtr (some 1) (some 3), LifeEvent.stopInstance 1] :=
  ⟨(reload_different_config (fun _ => Except.ok aggB) "f" 300 stActive aggB
      rfl rfl).1,
   (reload_different_config (fun _ => Except.ok aggB) "f" 300 stActive aggB
      rfl rfl).2.1⟩

/-- The loop over a batch whose every series has a sample and builds
without error flushes the accumulated rows plus one row per series. -/
theorem pushAggregateLoop_all_ok (failOn : List Label → Bool)
    (addRowsFails : Bool) (currentTimestamp : Int) (tss : List TimeSeries) :
    ∀ acc : List BuiltRow,
    (∀ ts ∈ tss, ts.samples ≠ []) →
    (∀ ts ∈ tss, failOn (mapAggregateLabels ts.labels) = false) →
    pushAggregateLoop failOn addRowsFails currentTimestamp tss acc =
      FeedbackOutcome.flushed
        (acc ++ tss.map (builtRowOf currentTimestamp)) addRowsFails := by
  induction tss with
  | nil => intro acc _ _; simp [pushAggregateLoop]
  | cons ts rest ih =>
      intro acc h1 h2
      rcases hs : ts.samples with _ | ⟨s, sr⟩
      · exact absurd hs (h1 ts (by simp))
      · have hf : failOn (mapAggregateLabels ts.labels) = false :=
          h2 ts (by simp)
        have hrow : builtRowOf currentTimestamp ts =
            { labels := mapAggregateLabels ts.labels,
              timestamp := currentTimestamp, value := s.value } := by
          simp [builtRowOf, hs]
        have ihx := ih (acc ++ [builtRowOf currentTimestamp ts])
          (fun t ht => h1 t (by simp [ht])) (fun t ht => h2 t (by simp [ht]))
        simp [pushAggregateLoop, hs, writeDataPoint, hf]
        rw [← hrow]
        simpa using ihx

/-- The loop over a batch whose series `ts` is the first to fail to
build returns at once with exactly the rows built for the prefix; the
suffix after `ts` is never examined. -/
theorem pushAggregateLoop_fail (failOn : List Label → Bool)
    (addRowsFails : Bool) (currentTimestamp : Int) (ts : TimeSeries)
    (hts : ts.samples ≠ [])
    (hfail : failOn (mapAggregateLabels ts.labels) = true)
    (pre : List TimeSeries) :
    ∀ (post : List TimeSeries) (acc : List BuiltRow),
    (∀ t ∈ pre, t.samples ≠ []) →
    (∀ t ∈ pre, failOn (mapAggregateLabels t.labels) = false) →
    pushAggregateLoop failOn addRowsFails currentTimestamp
        (pre ++ ts :: post) acc =
      FeedbackOutcome.buildFailed (acc ++ pre.map (builtRowOf currentTimestamp)) := by
  induction pre with
  | nil =>
      intro post acc _ _
      rcases hs : ts.samples with _ | ⟨s, sr⟩
      · exact absurd hs hts
      · simp [pushAggregateLoop, hs, writeDataPoint, hfail]
  | cons t pre' ih =>
      intro post acc h1 h2
      rcases hs : t.samples with _ | ⟨s, sr⟩
      · exact absurd hs (h1 t (by simp))
      · have hf : failOn (mapAggregateLabels t.labels) = false :=
          h2 t (by simp)
        have hrow : builtRowOf currentTimestamp t =
            { labels := mapAggregateLabels t.labels,
              timestamp := currentTimestamp, value := s.value } := by
          simp [builtRowOf, hs]
        have ihx := ih post (acc ++ [builtRowOf currentTimestamp t])
          (fun u hu => h1 u (by simp [hu])) (fun u hu => h2 u (by simp [hu]))
        simp [pushAggregateLoop, hs, writeDataPoint, hf]
        rw [← hrow]
        simpa using ihx

/-- If the loop flushed a batch, every series in it built without
error. -/
theorem pushAggregateLoop_flushed_all_ok (failOn : List Label → Bool)
    (addRowsFails : Bool) (currentTimestamp : Int) (tss : List TimeSeries) :
    ∀ (acc rows : List BuiltRow),
    pushAggregateLoop failOn addRowsFails currentTimestamp tss acc =
      FeedbackOutcome.flushed rows addRowsFails →
    ∀ t ∈ tss, failOn (mapAggregateLabels t.labels) = false := by
  induction tss with
  | nil => intro acc rows _ t ht; simp at ht
  | cons ts rest ih =>
      intro acc rows h t ht
      rcases hs : ts.samples with _ | ⟨s, sr⟩
      · rw [pushAggregateLoop, hs] at h
        exact absurd h (by simp)
      · cases hfo : failOn (mapAggregateLabels ts.labels) with
        | true =>
            rw [pushAggregateLoop, hs] at h
            simp [writeDataPoint, hfo] at h
        | false =>
            rw [pushAggregateLoop, hs] at h
            simp only [writeDataPoint, hfo, if_neg, Bool.false_eq_true,
              if_false] at h
            rcases List.mem_cons.mp ht with rfl | hmem
            · exact hfo
            · exact ih _ rows h t hmem

/-- The loop cannot reach the out-of-range access when every series in
the batch has at least one sample. -/
theorem pushAggregateLoop_no_panic (failOn : List Label → Bool)
    (addRowsFails : Bool) (currentTimestamp : Int) (tss : List TimeSeries) :
    ∀ acc : List BuiltRow, (∀ ts ∈ tss, ts.samples ≠ []) →
    pushAggregateLoop failOn addRowsFails currentTimestamp tss acc ≠
      FeedbackOutcome.panicked := by
  induction tss with
  | nil => intro acc _; simp [pushAggregateLoop]
  | cons ts rest ih =>
      intro acc h1
      rcases hs : ts.samples with _ | ⟨s, sr⟩
      · exact absurd hs (h1 ts (by simp))
      · cases hfo : failOn (mapAggregateLabels ts.labels) with
        | true => simp [pushAggregateLoop, hs, writeDataPoint, hfo]
        | false =>
            have ihx := ih (acc ++
              [{ labels := mapAggregateLabels ts.labels,
                 timestamp := currentTimestamp,
                 value := s.value }])
              (fun t ht => h1 t (by simp [ht]))
            simp [pushAggregateLoop, hs, writeDataPoint, hfo, ihx]

/-- Every row the loop adds beyond the accumulated ones is the row built
from some series of the batch with a nonempty sample list. -/
theorem pushAggregateLoop_rowsBuilt (failOn : List Label → Bool)
    (addRowsFails : Bool) (currentTimestamp : Int) (tss : List TimeSeries) :
    ∀ acc : List BuiltRow,
    ∀ r ∈ (pushAggregateLoop failOn addRowsFails currentTimestamp
        tss acc).rowsBuilt,
      r ∈ acc ∨ ∃ ts ∈ tss, ts.samples ≠ [] ∧ r = builtRowOf currentTimestamp ts := by
  induction tss with
  | nil =>
      intro acc r hr
      exact Or.inl (by simpa [pushAggregateLoop, FeedbackOutcome.rowsBuilt] using hr)
  | cons ts rest ih =>
      intro acc r hr
      rcases hs : ts.samples with _ | ⟨s, sr⟩
      · rw [pushAggregateLoop, hs] at hr
        simp [FeedbackOutcome.rowsBuilt] at hr
      · cases hfo : failOn (mapAggregateLabels ts.labels) with
        | true =>
            rw [pushAggregateLoop, hs] at hr
            simp only [writeDataPoint, hfo, if_pos] at hr
            exact Or.inl (by simpa [FeedbackOutcome.rowsBuilt] using hr)
        | false =>
            rw [pushAggregateLoop, hs] at hr
            simp only [writeDataPoint, hfo, Bool.false_eq_true, if_false] at hr
            rcases ih _ r hr with hacc | ⟨u, hu, hune, hru⟩
            · rcases List.mem_append.mp hacc with h | h
              · exact Or.inl h
              · refine Or.inr ⟨ts, by simp, by simp [hs], ?_⟩
                simp only [List.mem_singleton] at h
                simp [h, builtRowOf, hs]
            · exact Or.inr ⟨u, by simp [hu], hune, hru⟩

/-- One series truncated to its first sample. -/
def truncFirst (ts : TimeSeries) : TimeSeries :=
  { ts with samples := ts.samples.take 1 }

/-- The loop reads only each series' first sample: truncating every
series to its first sample changes nothing. -/
theorem pushAggregateLoop_first_sample (failOn : List Label → Bool)
    (addRowsFails : Bool) (currentTimestamp : Int) (tss : List TimeSeries) :
    ∀ acc : List BuiltRow,
    pushAggregateLoop failOn addRowsFails currentTimestamp
        (tss.map truncFirst) acc =
      pushAggregateLoop failOn addRowsFails currentTimestamp tss acc := by
  induction tss with
  | nil => intro acc; rfl
  | cons ts rest ih =>
      intro acc
      rcases hs : ts.samples with _ | ⟨s, sr⟩
      · simp [pushAggregateLoop, truncFirst, hs]
      · cases hfo : failOn (mapAggregateLabels ts.labels) with
        | true => simp [pushAggregateLoop, truncFirst, hs, writeDataPoint, hfo]
        | false => simp [pushAggregateLoop, truncFirst, hs, writeDataPoint, hfo, ih]

/-- C7: when building the row for one series fails, the feedback writer
returns at once holding only the rows built for the earlier series,
hands nothing from the call to the storage write API (not even the
successfully built prefix — the later series are not even examined, as
the result does not depend on them), logs exactly one error, and the
storage write is invoked only on calls in which every series built
without error. -/
theorem feedback_fail_fast
    (failOn : List Label → Bool) (addRowsFails : Bool) (nowSeconds : Nat)
    (pre : List TimeSeries) (ts : TimeSeries) (post : List TimeSeries)
    (hpre1 : ∀ t ∈ pre, t.samples ≠ [])
    (hpre2 : ∀ t ∈ pre, failOn (mapAggregateLabels t.labels) = false)
    (hts : ts.samples ≠ [])
    (hfail : failOn (mapAggregateLabels ts.labels) = true) :
    (pushAggregateSeries failOn addRowsFails nowSeconds
        (pre ++ ts :: post)).outcome =
      FeedbackOutcome.buildFailed
        (pre.map (builtRowOf ((nowSeconds : Int) * 1000))) ∧
    ((pushAggregateSeries failOn addRowsFails nowSeconds
        (pre ++ ts :: post)).outcome).storageBatches = [] ∧
    ((pushAggregateSeries failOn addRowsFails nowSeconds
        (pre ++ ts :: post)).outcome).errorsLogged = 1 ∧
    (∀ (tss : List TimeSeries) (rows : List BuiltRow),
      (pushAggregateSeries failOn addRowsFails nowSeconds tss).outcome =
        FeedbackOutcome.flushed rows addRowsFails →
      ∀ t ∈ tss, failOn (mapAggregateLabels t.labels) = false) := by
  have h := pushAggregateLoop_fail failOn addRowsFails
    ((nowSeconds : Int) * 1000) ts hts hfail pre post [] hpre1 hpre2
  refine ⟨?_, ?_, ?_, ?_⟩
  · simpa [pushAggregateSeries] using h
  · have h2 : (pushAggregateSeries failOn addRowsFails nowSeconds
        (pre ++ ts :: post)).outcome =
      FeedbackOutcome.buildFailed
        (pre.map (builtRowOf ((nowSeconds : Int) * 1000))) := by
      simpa [pushAggregateSeries] using h
    rw [h2]
    rfl
  · have h2 : (pushAggregateSeries failOn addRowsFails nowSeconds
        (pre ++ ts :: post)).outcome =
      FeedbackOutcome.buildFailed
        (pre.map (builtRowOf ((nowSeconds : Int) * 1000))) := by
      simpa [pushAggregateSeries] using h
    rw [h2]
    rfl
  · intro tss rows hfl t ht
    exact pushAggregateLoop_flushed_all_ok failOn addRowsFails
      ((nowSeconds : Int) * 1000) tss [] rows
      (by simpa [pushAggregateSeries] using hfl) t ht

/-- A series named `nm` with one sample. -/
def mkSeries (nm : String) (t : Int) (v : Value) : TimeSeries :=
  { labels := [ { name := "__name__", value := nm } ],
    samples := [ { timestamp := t, value := v } ] }

/-- The spec's five aggregate-output series, of which the third fails to
build. -/
def demoPre : List TimeSeries := [mkSeries "s1" 10 1, mkSeries "s2" 20 2]

/-- The failing third series of the spec's feedback scenario. -/
def demoBad : TimeSeries := mkSeries "s3" 30 3

/-- The never-attempted fourth and fifth series of the scenario. -/
def demoPost : List TimeSeries := [mkSeries "s4" 40 4, mkSeries "s5" 50 5]

/-- A build-failure condition hitting exactly the third series' row. -/
def demoFailOn : List Label → Bool :=
  fun ls => decide (ls = [ { name := "", value := "s3" } ])

/-- Witness for C7: in the five-series scenario with the third failing,
nothing reaches storage and exactly one error is logged. -/
theorem feedback_fail_fast_witness :
    (pushAggregateSeries demoFailOn false 7
        (demoPre ++ demoBad :: demoPost)).outcome.storageBatches = [] ∧
    (pushAggregateSeries demoFailOn false 7
        (demoPre ++ demoBad :: demoPost)).outcome.errorsLogged = 1 :=
  ⟨(feedback_fail_fast demoFailOn false 7 demoPre demoBad demoPost
      (by decide) (by decide) (by decide) (by decide)).2.1,
   (feedback_fail_fast demoFailOn false 7 demoPre demoBad demoPost
      (by decide) (by decide) (by decide) (by decide)).2.2.1⟩

/-- C8: every row the feedback writer builds carries the call's
wall-clock time truncated to whole seconds and expressed in milliseconds
as its timestamp, and comes from some input series with its `__name__`
label renamed to the empty metric-group name, all other labels kept as
tags, and the series' first sample value. -/
theorem feedback_rows_retimestamped
    (failOn : List Label → Bool) (addRowsFails : Bool) (nowSeconds : Nat)
    (tss : List TimeSeries) (row : BuiltRow)
    (hrow : row ∈ (pushAggregateSeries failOn addRowsFails nowSeconds
        tss).outcome.rowsBuilt) :
    row.timestamp = (nowSeconds : Int) * 1000 ∧
    ∃ ts ∈ tss, ∃ s, ts.samples.head? = some s ∧
      row.labels = ts.labels.map
        (fun l => if l.name = "__name__" then
          { name := "", value := l.value } else l) ∧
      row.value = s.value := by
  have h := pushAggregateLoop_rowsBuilt failOn addRowsFails
    ((nowSeconds : Int) * 1000) tss [] row
    (by simpa [pushAggregateSeries] using hrow)
  rcases h with h | ⟨ts, hts, hne, hr⟩
  · simp at h
  · subst hr
    rcases hs : ts.samples with _ | ⟨s, sr⟩
    · exact absurd hs hne
    · refine ⟨rfl, ts, hts, s, by simp [hs], ?_, ?_⟩
      · simp [builtRowOf, mapAggregateLabels]
      · simp [builtRowOf, hs]

/-- A concrete row built by the feedback writer at wall clock 7 s. -/
def demoRow : BuiltRow :=
  { labels := [ { name := "", value := "s1" } ], timestamp := 7000, value := 1 }

/-- Witness for C8: the row built for the series `s1` at wall clock 7 s
carries timestamp 7000 ms. -/
theorem feedback_rows_retimestamped_witness :
    demoRow.timestamp = ((7 : Nat) : Int) * 1000 :=
  (feedback_rows_retimestamped (fun _ => false) false 7
    [mkSeries "s1" 10 1] demoRow (by decide)).1

/-- C9: every feedback call runs through an insert context whose
skip-stream-aggregation flag is set, and a flush through a context with
that flag set performs no rule-set invocation, so aggregate output never
re-enters the aggregation path. -/
theorem feedback_skip_stream_aggr
    (failOn : List Label → Bool) (addRowsFails : Bool) (nowSeconds : Nat)
    (tss : List TimeSeries) (sas : Option Aggregators)
    (mrs : List MetricRow) :
    (pushAggregateSeries failOn addRowsFails nowSeconds
        tss).skipStreamAggr = true ∧
    insertCtxAggrCalls
      (pushAggregateSeries failOn addRowsFails nowSeconds tss).skipStreamAggr
      sas mrs = [] := by
  exact ⟨rfl, rfl⟩

/-- C10: the feedback writer reads only the first sample of each series
(truncating every series to its first sample changes nothing), it cannot
hit the out-of-range access when every series has at least one sample,
and a series with an empty sample list does make the first-sample access
go out of range. -/
theorem feedback_first_sample_only
    (failOn : List Label → Bool) (addRowsFails : Bool) (nowSeconds : Nat) :
    (∀ tss : List TimeSeries,
      pushAggregateSeries failOn addRowsFails nowSeconds
          (tss.map truncFirst) =
        pushAggregateSeries failOn addRowsFails nowSeconds tss) ∧
    (∀ tss : List TimeSeries, (∀ ts ∈ tss, ts.samples ≠ []) →
      (pushAggregateSeries failOn addRowsFails nowSeconds tss).outcome ≠
        FeedbackOutcome.panicked) ∧
    (pushAggregateSeries failOn addRowsFails nowSeconds
        [{ labels := [], samples := [] }]).outcome =
      FeedbackOutcome.panicked := by
  refine ⟨?_, ?_, ?_⟩
  · intro tss
    simp [pushAggregateSeries, pushAggregateLoop_first_sample]
  · intro tss h
    simpa [pushAggregateSeries] using
      pushAggregateLoop_no_panic failOn addRowsFails
        ((nowSeconds : Int) * 1000) tss [] h
  · rfl

/-- Witness for C10: a one-series batch with a sample does not hit the
out-of-range access. -/
theorem feedback_first_sample_only_witness :
    (pushAggregateSeries demoFailOn false 7
        [mkSeries "s1" 10 1]).outcome ≠ FeedbackOutcome.panicked :=
  (feedback_first_sample_only demoFailOn false 7).2.1
    [mkSeries "s1" 10 1] (by decide)

end StreamAggr
